import Mathlib

/-!
Verification of the TypeDoc/themes repository: a shallow embedding of the
Gesture value-object classes (src/default/Gesture.ts, SwipeGesture.ts) and of
the Grunt build configuration (the gruntfile), with theorems settling the
specification's claims about them.

Modelling conventions:
* JavaScript numbers are modelled as `Option Int`: `none` is the `undefined`
  of a field never assigned, `some n` a populated numeric value.  (NaN and
  fractional values play no role in any claim; the truthiness and loose
  equality used by the code are total on this model.)
* External object references (Frame, Hand, Pointable, Vector3 — classes
  referenced by the sources but populated by the external driver) are
  modelled as opaque reference numbers.
* Object identity (`new` allocating a fresh reference) is modelled by an
  explicit allocation counter, used where a claim speaks about "the same
  instance".
* The Grunt configuration is embedded as data: a registry mapping task names
  to primitive stage lists or alias lists, and an expansion function that
  flattens a task into the sequence of primitive stages it runs.
-/

namespace LeapTS

/-- External reference to a Frame object (not implemented in this repository). -/
abbrev Frame := Nat

/-- External reference to a Hand object. -/
abbrev Hand := Nat

/-- External reference to a Pointable (finger/tool) object. -/
abbrev Pointable := Nat

/-- External reference to a Vector3 object. -/
abbrev Vector3 := Nat

/-- The possible gesture states (enum `State` in Gesture.ts). -/
inductive State where
  | STATE_INVALID
  | STATE_START
  | STATE_UPDATE
  | STATE_STOP
deriving DecidableEq, Repr

/-- Numeric value of a `State` enum member, as declared in Gesture.ts. -/
def State.toNum : State → Int
  | .STATE_INVALID => 0
  | .STATE_START => 1
  | .STATE_UPDATE => 2
  | .STATE_STOP => 3

/-- The supported types of gestures (enum `Type` in Gesture.ts; renamed since
`Type` is reserved in Lean). -/
inductive GestureType where
  | TYPE_INVALID
  | TYPE_SWIPE
  | TYPE_CIRCLE
  | TYPE_SCREEN_TAP
  | TYPE_KEY_TAP
deriving DecidableEq, Repr

/-- Numeric value of a `Type` enum member, as declared in Gesture.ts. -/
def GestureType.toNum : GestureType → Int
  | .TYPE_INVALID => 4
  | .TYPE_SWIPE => 5
  | .TYPE_CIRCLE => 6
  | .TYPE_SCREEN_TAP => 7
  | .TYPE_KEY_TAP => 8

/-- JavaScript loose equality `==` restricted to number-or-undefined values,
as it occurs in `Gesture.isEqualTo`: `undefined == undefined` is `true`,
`undefined == n` is `false`, and two numbers compare numerically. -/
def jsLooseEq : Option Int → Option Int → Bool
  | none, none => true
  | some a, some b => a == b
  | _, _ => false

/-- JavaScript truthiness of a number-or-undefined value, as it occurs in
`Gesture.isValid`: `undefined` and `0` are falsy, every other number truthy. -/
def jsTruthy : Option Int → Bool
  | none => false
  | some n => n != 0

/-- JavaScript string conversion of a number-or-undefined value, as produced
by string concatenation in `Gesture.toString`. -/
def jsNumString : Option Int → String
  | none => "undefined"
  | some n => toString n

/-- The fields of the `Gesture` class (Gesture.ts).  Fields whose declared
type is a class reference or enum are `Option`s of the reference/enum, `none`
standing for a field the constructor left `undefined`. -/
structure Gesture where
  /-- Elapsed duration in microseconds. -/
  duration : Option Int
  /-- Elapsed duration in seconds. -/
  durationSeconds : Option Int
  /-- The Frame containing this Gesture instance. -/
  frame : Option Frame
  /-- The list of hands associated with this Gesture, if any. -/
  hands : List Hand
  /-- The gesture ID. -/
  id : Option Int
  /-- The list of fingers and tools associated with this Gesture, if any. -/
  pointables : List Pointable
  /-- The gesture state. -/
  state : Option State
  /-- The gesture type. -/
  type : Option GestureType
deriving DecidableEq, Repr

/-- The value produced by `new Gesture()`: the constructor body is empty, the
field initializers set `hands` and `pointables` to empty arrays, and every
other field stays `undefined`. -/
def Gesture.new : Gesture :=
  { duration := none
    durationSeconds := none
    frame := none
    hands := []
    id := none
    pointables := []
    state := none
    type := none }

/-- `Gesture.isEqualTo(other)`: `return (this.id == other.id);`. -/
def Gesture.isEqualTo (this other : Gesture) : Bool :=
  jsLooseEq this.id other.id

/-- `Gesture.isValid()`: `if (!this.durationSeconds) return false; return true;`. -/
def Gesture.isValid (this : Gesture) : Bool :=
  if !(jsTruthy this.durationSeconds) then false
  else true

/-- `Gesture.invalid()` (static): `return new Gesture();` — the structural
value of the returned object. -/
def Gesture.invalid : Gesture :=
  Gesture.new

/-- `Gesture.toString()`: the concatenation built in the source. -/
def Gesture.toString (this : Gesture) : String :=
  "[Gesture id:" ++ jsNumString this.id
    ++ " duration:" ++ jsNumString this.duration
    ++ " type:" ++ jsNumString (this.type.map GestureType.toNum) ++ "]"

/-- Allocation model for `new Gesture()`: given the next fresh object
address, the call returns the address of the new object, its structural
value, and the next state of the allocator.  Two calls never reuse an
address, reflecting that `new` always yields a distinct object. -/
def Gesture.newCall (next : Nat) : Nat × Gesture × Nat :=
  (next, Gesture.new, next + 1)

/-- `Gesture.invalid()` in the allocation model: the body `return new
Gesture();` allocates a fresh object on every call. -/
def Gesture.invalidCall (next : Nat) : Nat × Gesture × Nat :=
  Gesture.newCall next

/-- State-transformer reading of `isEqualTo`: the body is a single `return`
reading `this.id` and `other.id`, so the translation yields the result
together with the post-states of receiver and argument. -/
def Gesture.isEqualToRun (this other : Gesture) : Bool × Gesture × Gesture :=
  (jsLooseEq this.id other.id, this, other)

/-- State-transformer reading of `isValid`: the body reads
`this.durationSeconds` and returns; no assignment occurs. -/
def Gesture.isValidRun (this : Gesture) : Bool × Gesture :=
  (if !(jsTruthy this.durationSeconds) then false else true, this)

/-- State-transformer reading of `toString`: the body reads fields into a
concatenation and returns; no assignment occurs. -/
def Gesture.toStringRun (this : Gesture) : String × Gesture :=
  (this.toString, this)

/-- The extra fields of the `SwipeGesture` subclass (SwipeGesture.ts); its
constructor only calls `super()`, so all of them start `undefined`. -/
structure SwipeGesture extends Gesture where
  /-- The unit direction vector parallel to the swipe motion. -/
  direction : Option Vector3
  /-- The Finger or Tool performing the swipe gesture. -/
  pointable : Option Pointable
  /-- The current swipe position, in mm. -/
  position : Option Vector3
  /-- The speed of the finger, in mm per second. -/
  speed : Option Int
  /-- The position where the swipe began. -/
  startPosition : Option Vector3
deriving DecidableEq, Repr

/-- `SwipeGesture.classType` (static): `Type.TYPE_SWIPE`. -/
def SwipeGesture.classType : GestureType := GestureType.TYPE_SWIPE

/-- A concrete gesture whose duration fields were populated with the number
zero (and which carries an id), used as a test input below. -/
def gZero : Gesture :=
  { Gesture.new with id := some 1, duration := some 0, durationSeconds := some 0 }

end LeapTS

namespace Gruntfile

/-- A filesystem path, as its list of components: `dist/default` is
`["dist", "default"]`. -/
abbrev Path := List String

/-- The options block of a `typedoc` target in the gruntfile. -/
structure TypedocOptions where
  module : String
  out : Path
  name : String
  target : String
  theme : String
deriving DecidableEq, Repr

/-- The `typedoc.default` target of `grunt.initConfig`. -/
def typedocDefault : TypedocOptions :=
  { module := "commonjs"
    out := ["dist", "default"]
    name := "Leap Motion"
    target := "es5"
    theme := "default" }

/-- Source tree of the `typedoc.default` target. -/
def typedocDefaultSrc : Path := ["src", "default"]

/-- The `typedoc.minimal` target of `grunt.initConfig`. -/
def typedocMinimal : TypedocOptions :=
  { module := "commonjs"
    out := ["dist", "minimal"]
    name := "FS Extra"
    target := "es5"
    theme := "minimal" }

/-- Source tree of the `typedoc.minimal` target. -/
def typedocMinimalSrc : Path := ["src", "minimal"]

/-- Source patterns of the `copy.rootfiles` target. -/
def rootfilesSrc : List String := ["README.md", "LICENCE*"]

/-- Destination directory of the `copy.rootfiles` target: `dist/`. -/
def rootfilesDest : Path := ["dist"]

/-- The paths removed by the `clean.dist` target: `dist/`. -/
def cleanDistPaths : List Path := [["dist"]]

/-- Base directory of the `gh-pages.dist` target: `dist/`. -/
def ghPagesBase : Path := ["dist"]

/-- A primitive pipeline stage: one invocation of an external tool, carrying
the configuration the gruntfile passes it. -/
inductive Stage where
  | cleanStep (paths : List Path)
  | typedocStep (src : Path) (opts : TypedocOptions)
  | copyStep (srcs : List String) (dest : Path)
  | ghPagesStep (base : Path)
deriving DecidableEq, Repr

/-- A registered task: either a multi-target primitive task (running it with
no `:target` suffix runs every configured target, in configuration order) or
an alias for a list of other task names. -/
inductive TaskDef where
  | primitive (stages : List Stage)
  | taskAlias (subtasks : List String)
deriving DecidableEq, Repr

/-- The gruntfile's task registry: the four loaded plugin tasks with their
`grunt.initConfig` targets, and the three `grunt.registerTask` aliases. -/
def registry : String → Option TaskDef := fun n =>
  if n = "clean" then
    some (.primitive [.cleanStep cleanDistPaths])
  else if n = "typedoc" then
    some (.primitive
      [.typedocStep typedocDefaultSrc typedocDefault,
       .typedocStep typedocMinimalSrc typedocMinimal])
  else if n = "copy" then
    some (.primitive [.copyStep rootfilesSrc rootfilesDest])
  else if n = "gh-pages" then
    some (.primitive [.ghPagesStep ghPagesBase])
  else if n = "build" then
    some (.taskAlias ["clean", "typedoc", "copy"])
  else if n = "publish" then
    some (.taskAlias ["build", "gh-pages"])
  else if n = "default" then
    some (.taskAlias ["build"])
  else
    none

/-- Expansion of one task name into the sequence of primitive stages it runs,
with a fuel bound on alias-nesting depth (the registry's aliases nest at most
two deep). -/
def expandOne : Nat → String → List Stage
  | 0, _ => []
  | fuel + 1, t =>
    match registry t with
    | some (.primitive s) => s
    | some (.taskAlias subs) => (subs.map (expandOne fuel)).flatten
    | none => []

/-- Running `grunt <task>`: the flat stage sequence the task executes. -/
def gruntRun (t : String) : List Stage :=
  expandOne 8 t

/-- Destination path of one copied file under `grunt-contrib-copy` with a
directory `dest`: the file lands directly inside `dest`. -/
def copyDest (file : String) (dest : Path) : Path :=
  dest ++ [file]

/-- `a` lies strictly inside the directory `d` (is a descendant path). -/
def inDir (d p : Path) : Bool :=
  d.isPrefixOf p && decide (d ≠ p)

end Gruntfile

/-!
## Theorems settling the claims
-/

/-- C1: for every two Gesture instances, `isEqualTo` returns true if and only
if their `id` fields are equal; since the right-hand side mentions only the
`id` fields, the result is independent of duration, state, type, frame,
hands, pointables, and every subtype field. -/
theorem gesture_isEqualTo_iff_id_eq (g1 g2 : LeapTS.Gesture) :
    g1.isEqualTo g2 = true ↔ g1.id = g2.id := by
  cases h1 : g1.id <;> cases h2 : g2.id <;>
    simp [LeapTS.Gesture.isEqualTo, LeapTS.jsLooseEq, h1, h2]

/-- C2 counterexample: a gesture whose `durationSeconds` was populated with
the number 0 is populated yet reports invalid, so validity is not equivalent
to the duration having been populated. -/
theorem gesture_populated_zero_duration_invalid :
    ¬ (LeapTS.gZero.isValid = true ↔ LeapTS.gZero.durationSeconds.isSome = true) := by
  decide

/-- C2 amended: `isValid` returns true iff `durationSeconds` is populated
with a nonzero (truthy) value; a gesture whose duration was never recorded,
or was recorded as zero, reports invalid. -/
theorem gesture_isValid_iff_truthy_duration (g : LeapTS.Gesture) :
    g.isValid = true ↔ ∃ n, g.durationSeconds = some n ∧ n ≠ 0 := by
  cases h : g.durationSeconds with
  | none => simp [LeapTS.Gesture.isValid, LeapTS.jsTruthy, h]
  | some n =>
    by_cases hn : n = 0 <;>
      simp [LeapTS.Gesture.isValid, LeapTS.jsTruthy, h, hn]

/-- C3: the Gesture returned by the static `Gesture.invalid()` accessor
always reports invalid — both as a structural value and on every call in the
allocation model, where the result is an actual allocated Gesture object
(an address paired with a Gesture value), never an absent value. -/
theorem gesture_invalid_reports_invalid :
    LeapTS.Gesture.invalid.isValid = false ∧
    ∀ n : Nat, ((LeapTS.Gesture.invalidCall n).2.1).isValid = false :=
  ⟨rfl, fun _ => rfl⟩

/-- C4 counterexample: `Gesture.invalid()` executes `return new Gesture();`,
so two consecutive calls (from allocator state 0) return objects at distinct
addresses — not the same shared instance. -/
theorem gesture_invalid_fresh_each_call :
    (LeapTS.Gesture.invalidCall 0).1 ≠
      (LeapTS.Gesture.invalidCall (LeapTS.Gesture.invalidCall 0).2.2).1 := by
  decide

/-- C4 amended: `Gesture.invalid()` allocates a fresh Gesture on every call
(two consecutive calls return distinct objects), but all results are
structurally identical, mutually equal under `isEqualTo`, and invalid, so
the accessor is usable in comparisons testing validity. -/
theorem gesture_invalid_distinct_but_equivalent (n : Nat) :
    (LeapTS.Gesture.invalidCall n).1 ≠
      (LeapTS.Gesture.invalidCall (LeapTS.Gesture.invalidCall n).2.2).1 ∧
    (LeapTS.Gesture.invalidCall n).2.1 =
      (LeapTS.Gesture.invalidCall (LeapTS.Gesture.invalidCall n).2.2).2.1 ∧
    ((LeapTS.Gesture.invalidCall n).2.1).isEqualTo
      ((LeapTS.Gesture.invalidCall (LeapTS.Gesture.invalidCall n).2.2).2.1) = true ∧
    ((LeapTS.Gesture.invalidCall n).2.1).isValid = false := by
  refine ⟨?_, rfl, rfl, rfl⟩
  simp [LeapTS.Gesture.invalidCall, LeapTS.Gesture.newCall]

/-- C5: no Gesture operation mutates state: in the state-transformer reading
of `isEqualTo`, `isValid` and `toString`, the post-state of the receiver (and
of the argument gesture) equals the pre-state in every field; the static
`invalid()` accessor takes no gesture and only allocates a new object. -/
theorem gesture_operations_pure (g other : LeapTS.Gesture) :
    (g.isEqualToRun other).2.1 = g ∧ (g.isEqualToRun other).2.2 = other ∧
    g.isValidRun.2 = g ∧ g.toStringRun.2 = g :=
  ⟨rfl, rfl, rfl, rfl⟩

/-- C6: the `build` task expands to exactly the stage sequence clean of
`dist/`, typedoc over `src/default` (theme default) then over `src/minimal`
(theme minimal), then copy of the root static files `README.md`, `LICENCE*`
into the output; and `publish` expands to exactly the build sequence
followed by a gh-pages push of the combined output. -/
theorem grunt_build_publish_sequence :
    Gruntfile.gruntRun "build" =
      [Gruntfile.Stage.cleanStep Gruntfile.cleanDistPaths,
       Gruntfile.Stage.typedocStep Gruntfile.typedocDefaultSrc Gruntfile.typedocDefault,
       Gruntfile.Stage.typedocStep Gruntfile.typedocMinimalSrc Gruntfile.typedocMinimal,
       Gruntfile.Stage.copyStep Gruntfile.rootfilesSrc Gruntfile.rootfilesDest] ∧
    Gruntfile.gruntRun "publish" =
      Gruntfile.gruntRun "build" ++ [Gruntfile.Stage.ghPagesStep Gruntfile.ghPagesBase] := by
  have hb : Gruntfile.gruntRun "build" =
      [Gruntfile.Stage.cleanStep Gruntfile.cleanDistPaths,
       Gruntfile.Stage.typedocStep Gruntfile.typedocDefaultSrc Gruntfile.typedocDefault,
       Gruntfile.Stage.typedocStep Gruntfile.typedocMinimalSrc Gruntfile.typedocMinimal,
       Gruntfile.Stage.copyStep Gruntfile.rootfilesSrc Gruntfile.rootfilesDest] := rfl
  refine ⟨hb, ?_⟩
  rw [hb]
  rfl

/-- C7 counterexample: the copy stage's destination is `dist/`, so the copied
`README.md` lands at `dist/README.md`, which lies inside neither configured
output tree `dist/default` nor `dist/minimal` — the themed output trees do
not contain the copied root static files. -/
theorem grunt_rootfiles_not_in_themed_trees :
    Gruntfile.inDir Gruntfile.typedocDefault.out
      (Gruntfile.copyDest "README.md" Gruntfile.rootfilesDest) = false ∧
    Gruntfile.inDir Gruntfile.typedocMinimal.out
      (Gruntfile.copyDest "README.md" Gruntfile.rootfilesDest) = false := by
  decide

/-- C7 amended: the two configured output trees `dist/default` and
`dist/minimal` are distinct and neither is a path prefix of the other; the
copied root static files (`README.md`, `LICENCE*`) land inside the common
parent output directory `dist/`, which also contains both themed trees —
not inside each themed tree. -/
theorem grunt_output_trees_disjoint :
    Gruntfile.typedocDefault.out ≠ Gruntfile.typedocMinimal.out ∧
    Gruntfile.typedocDefault.out.isPrefixOf Gruntfile.typedocMinimal.out = false ∧
    Gruntfile.typedocMinimal.out.isPrefixOf Gruntfile.typedocDefault.out = false ∧
    Gruntfile.inDir Gruntfile.rootfilesDest Gruntfile.typedocDefault.out = true ∧
    Gruntfile.inDir Gruntfile.rootfilesDest Gruntfile.typedocMinimal.out = true ∧
    Gruntfile.inDir Gruntfile.rootfilesDest
      (Gruntfile.copyDest "README.md" Gruntfile.rootfilesDest) = true ∧
    Gruntfile.inDir Gruntfile.rootfilesDest
      (Gruntfile.copyDest "LICENCE*" Gruntfile.rootfilesDest) = true := by
  decide

/-- C8: for every Gesture whose `durationSeconds` field is the number 0,
`isValid()` returns false — a populated-but-zero duration reports invalid
exactly like a never-set one, because validity is decided by truthiness. -/
theorem gesture_zero_duration_invalid (g : LeapTS.Gesture)
    (h : g.durationSeconds = some 0) : g.isValid = false := by
  simp [LeapTS.Gesture.isValid, LeapTS.jsTruthy, h]

/-- Witness for C8 at the concrete gesture `gZero`. -/
theorem gesture_zero_duration_invalid_witness : LeapTS.gZero.isValid = false :=
  gesture_zero_duration_invalid LeapTS.gZero rfl

/-- C9: the no-argument constructor initializes `hands` and `pointables` to
empty arrays and leaves `id`, `duration`, `durationSeconds`, `frame`,
`state` and `type` unset; every result of `Gesture.invalid()` is exactly
this constructor value. -/
theorem gesture_constructor_fields :
    LeapTS.Gesture.new.hands = [] ∧ LeapTS.Gesture.new.pointables = [] ∧
    LeapTS.Gesture.new.id = none ∧ LeapTS.Gesture.new.duration = none ∧
    LeapTS.Gesture.new.durationSeconds = none ∧ LeapTS.Gesture.new.frame = none ∧
    LeapTS.Gesture.new.state = none ∧ LeapTS.Gesture.new.type = none ∧
    LeapTS.Gesture.invalid = LeapTS.Gesture.new ∧
    ∀ n : Nat, (LeapTS.Gesture.invalidCall n).2.1 = LeapTS.Gesture.new :=
  ⟨rfl, rfl, rfl, rfl, rfl, rfl, rfl, rfl, rfl, fun _ => rfl⟩

/-- C10: the `default` task expands to exactly the same stage sequence as
the `build` task. -/
theorem grunt_default_eq_build :
    Gruntfile.gruntRun "default" = Gruntfile.gruntRun "build" := rfl
